import Mathlib

/-!
Verification of the pydargparse repository: a shallow embedding of
`pydargparse/models.py`, `pydargparse/decorators.py` and
`pydargparse/parse.py` in Lean 4, with theorems settling the frozen
claims about the natural-language specification.

Python values are modelled by the inductive `PyValue` (which includes the
`Undefined` sentinel class of models.py as a distinct constructor), Python
exceptions by `PyErr`, and fallible Python calls by `Except PyErr`.
-/

/-- Python runtime values as they occur in this program.  The constructor
`undefined` models the sentinel class `Undefined` of models.py (line 5),
which is distinct from `None` (`pynone`).  `obj s` stands for an opaque
Python object identified by `s` (e.g. the default `formatter_class`). -/
inductive PyValue where
  | pynone : PyValue
  | pybool : Bool → PyValue
  | pyint : Int → PyValue
  | pystr : String → PyValue
  | undefined : PyValue
  | obj : String → PyValue
deriving DecidableEq, Repr

/-- Python exceptions raised by the code under verification.
`attributeError a` carries the name of the missing attribute. -/
inductive PyErr where
  | typeError : String → PyErr
  | valueError : String → PyErr
  | attributeError : String → PyErr
deriving DecidableEq, Repr

/-- Association-list lookup by string key, modelling Python dict / attribute
access on the small mappings this program uses. -/
def alist_get {α : Type} (name : String) : List (String × α) → Option α
  | [] => none
  | (k, v) :: rest => if k = name then some v else alist_get name rest

/-- `ListStyle` enum of models.py (lines 23-25). -/
inductive ListStyle where
  | repeat_key : ListStyle
  | repeat_value : ListStyle
deriving DecidableEq, Repr

/-- The `Argument` field descriptor of models.py (lines 28-58): the
attributes stored by a successful `Argument.__init__`.  `default_factory`,
`custom_type` and the per-field post validator are Python callables,
modelled as Lean functions (fallible ones return `Except PyErr`).
The source attribute `help` is stored here under the source keyword name
`help_`. -/
structure Argument where
  alias_ : Option String
  default : PyValue
  default_factory : Option (Unit → PyValue)
  custom_type : Option (String → Except PyErr PyValue)
  post_validator : Option (PyValue → Except PyErr PyValue)
  required : Option Bool
  help_ : Option String
  metavar : Option String
  list_style : ListStyle
  custom_type_requires_list : Bool

/-- `Argument.__init__` of models.py (lines 29-58): performs the three
validity checks in source order and, when all pass, stores every supplied
parameter.  `default is not Undefined` is modelled as
`default ≠ PyValue.undefined`, `default_factory is not None` as
`default_factory.isSome`, and `required is False` as
`required = some false`.  The source error messages quote the parameter
names; the quotes are dropped here. -/
def Argument.init (alias_ : Option String) (default : PyValue)
    (default_factory : Option (Unit → PyValue))
    (custom_type : Option (String → Except PyErr PyValue))
    (post_validator : Option (PyValue → Except PyErr PyValue))
    (required : Option Bool) (help_ : Option String) (metavar : Option String)
    (list_style : ListStyle) (custom_type_requires_list : Bool) :
    Except PyErr Argument :=
  if default ≠ PyValue.undefined ∧ default_factory.isSome then
    .error (.valueError "Cannot use both default and default_factory for the same field")
  else if required = some false ∧ (default ≠ PyValue.undefined ∨ default_factory.isSome) then
    .error (.valueError "Cannot use required=False when default value exists")
  else if custom_type_requires_list ∧ custom_type.isNone then
    .error (.valueError "Cannot use custom_type_requires_list without custom_type")
  else
    .ok { alias_ := alias_, default := default, default_factory := default_factory,
          custom_type := custom_type, post_validator := post_validator,
          required := required, help_ := help_, metavar := metavar,
          list_style := list_style,
          custom_type_requires_list := custom_type_requires_list }

/-- `_SubArgsDefinition` of decorators.py (lines 24-27): a registered
sub-schema link.  The child schema type is identified by its class name;
the source attribute named after the flag-name prefix is stored here as
`prefix_`. -/
structure SubArgsDefinition where
  sub_args : String
  prefix_ : Option String

/-- A schema class: a Python class derived from `AppArguments` of models.py.
`fields` lists the class-body declarations in order: a field annotated only
(`test_arg: int`) carries no descriptor (`none`), a field assigned an
`Argument` instance (`test_arg: int = Argument(...)`) carries that
descriptor (`some a`).  `config` is the optional nested `Config` block,
modelled as the mapping from its attribute names to their values (`none`
when the class has no `Config` member).  `pydargparse_sub_args_attr` is the
value of the class attribute `_pydargparse_sub_args` when that attribute
has been assigned; models.py line 14 only *annotates* it, and an annotation
creates no attribute, so classes as declared by the library have `none`
here. -/
structure SchemaClass where
  name : String
  fields : List (String × Option Argument)
  config : Option (List (String × PyValue))
  pydargparse_sub_args_attr : Option (List SubArgsDefinition)

/-- A class defined by subclassing `AppArguments`, as every schema in the
repository and its tests is: `_pydargparse_sub_args` is absent because
models.py only annotates it (line 14) and nothing in the library ever
assigns it. -/
def mkAppArgumentsSubclass (name : String)
    (fields : List (String × Option Argument))
    (config : Option (List (String × PyValue))) : SchemaClass :=
  { name := name, fields := fields, config := config,
    pydargparse_sub_args_attr := none }

/-- A Python instance of a schema class.  `dict` is the instance `__dict__`
restricted to plain-value attributes.  `pyd_args` is the instance attribute
`_pydargparse_args` (the internal field-value mapping, models.py line 13)
when set, and `sub_args_map` is the instance attribute
`_pydargparse_sub_args` (mapping sub-schema class names to their
materialized instances, models.py line 14) when set; both are `none` on a
bare instance such as `arg_type()` because nothing assigns them. -/
inductive AppArgumentsObj where
  | mk : SchemaClass → List (String × PyValue) →
      Option (List (String × PyValue)) →
      Option (List (String × AppArgumentsObj)) → AppArgumentsObj

/-- The class of an instance. -/
def AppArgumentsObj.cls : AppArgumentsObj → SchemaClass
  | .mk c _ _ _ => c

/-- The instance `__dict__` (plain-value attributes). -/
def AppArgumentsObj.dict : AppArgumentsObj → List (String × PyValue)
  | .mk _ d _ _ => d

/-- The `_pydargparse_args` instance attribute, when set. -/
def AppArgumentsObj.pyd_args : AppArgumentsObj → Option (List (String × PyValue))
  | .mk _ _ a _ => a

/-- The `_pydargparse_sub_args` instance attribute, when set. -/
def AppArgumentsObj.sub_args_map : AppArgumentsObj → Option (List (String × AppArgumentsObj))
  | .mk _ _ _ s => s

/-- `Argument.__set__` of models.py (lines 66-67): unconditionally raises
`TypeError`. -/
def Argument.dunder_set (_a : Argument) (_inst : AppArgumentsObj) (_value : PyValue) :
    Except PyErr Unit :=
  .error (.typeError "Argument attributes are immutable")

/-- Python attribute assignment `setattr(inst, name, value)` on a schema
instance, following the data-descriptor protocol: because `Argument`
defines `__set__` (models.py line 66) it is a data descriptor, so when the
class entry for `name` holds an `Argument`, assignment calls
`Argument.__set__`, which raises and leaves the instance untouched;
otherwise the value is stored in the instance `__dict__`.  Returns the
resulting instance together with the raised exception, if any. -/
def instance_setattr (inst : AppArgumentsObj) (name : String) (value : PyValue) :
    AppArgumentsObj × Option PyErr :=
  match alist_get name inst.cls.fields with
  | some (some a) =>
    match a.dunder_set inst value with
    | .error e => (inst, some e)
    | .ok _ => (inst, none)
  | _ =>
    (.mk inst.cls ((name, value) :: inst.dict) inst.pyd_args inst.sub_args_map, none)

/-- `AppArguments.pydargparse_get_sub_args` of models.py (lines 16-20):
`self._pydargparse_sub_args[sub_args_type]` with `KeyError` translated to a
`ValueError` naming the requested type and the parent class.  When the
instance attribute `_pydargparse_sub_args` itself is absent (it is never
assigned anywhere in the library), the attribute access raises
`AttributeError`, which the `except KeyError` clause does not catch.  The
source `ValueError` message uses a contraction of "was not". -/
def pydargparse_get_sub_args (inst : AppArgumentsObj) (sub_args_type : String) :
    Except PyErr AppArgumentsObj :=
  match inst.sub_args_map with
  | none => .error (.attributeError "_pydargparse_sub_args")
  | some m =>
    match alist_get sub_args_type m with
    | some v => .ok v
    | none =>
      .error (.valueError
        ("Sub arguments type " ++ sub_args_type ++ " was not registered in " ++ inst.cls.name))

/-- `_PostValidator` of decorators.py (lines 8-14): stores the field
specification (a single field name or a list of names) and the wrapped
callable. -/
structure _PostValidator (T : Type) where
  fields : String ⊕ List String
  val_f : T → T

/-- `_PostValidator.validate` of decorators.py (lines 13-14): applies the
stored callable to the single supplied value. -/
def _PostValidator.validate {T : Type} (pv : _PostValidator T) (value : T) : T :=
  pv.val_f value

/-- The `post_validator` decorator of decorators.py (lines 17-21): returns
a decorator wrapping the decorated callable in a `_PostValidator` carrying
the field specification. -/
def post_validator {T : Type} (fields : String ⊕ List String) :
    (T → T) → _PostValidator T :=
  fun external => { fields := fields, val_f := external }

/-- `register_sub_args` of decorators.py (lines 30-31):
`getattr(args, "_pydargparse_sub_args").append(_SubArgsDefinition(...))`.
When the class attribute is absent — which it always is for classes
declared through this library, since models.py only annotates it — the
`getattr` call raises `AttributeError`.  When the attribute does hold a
list of links, the new link is appended to it. -/
def register_sub_args (args : SchemaClass) (sub_args : String)
    (prefix_ : Option String) : Except PyErr SchemaClass :=
  match args.pydargparse_sub_args_attr with
  | none => .error (.attributeError "_pydargparse_sub_args")
  | some defs =>
    .ok { args with
          pydargparse_sub_args_attr :=
            some (defs ++ [{ sub_args := sub_args, prefix_ := prefix_ }]) }

/-- Modelled from CPython argparse (the external parsing primitive of spec
section 6): the defaulted parameters of `ArgumentParser.__init__` and their
default values, as `_get_default_args` in parse.py (lines 11-12) recovers
them by signature inspection.  The `parents` entry (default `[]`) is
omitted because no modelled value represents a Python list and parse.py
never queries it. -/
def argparse_init_defaults : List (String × PyValue) :=
  [("prog", PyValue.pynone),
   ("usage", PyValue.pynone),
   ("description", PyValue.pynone),
   ("epilog", PyValue.pynone),
   ("formatter_class", PyValue.obj "HelpFormatter"),
   ("prefix_chars", PyValue.pystr "-"),
   ("fromfile_prefix_chars", PyValue.pynone),
   ("argument_default", PyValue.pynone),
   ("conflict_handler", PyValue.pystr "error"),
   ("add_help", PyValue.pybool true),
   ("allow_abbrev", PyValue.pybool true),
   ("exit_on_error", PyValue.pybool true)]

/-- Python dict indexing `d[k]` on a string-keyed mapping.  Every key this
program indexes is present in the mapping, so the fallback value is never
reached (see `argparse_defaults_total`). -/
def dict_item (d : List (String × PyValue)) (k : String) : PyValue :=
  (alist_get k d).getD PyValue.pynone

/-- `_resolve_config` of parse.py (lines 15-19): when the schema class has
no `Config` member, or its `Config` does not define `arg_name`, return the
entry of `default_values`; otherwise return the `Config` value. -/
def _resolve_config (arguments : SchemaClass) (arg_name : String)
    (default_values : List (String × PyValue)) : PyValue :=
  match arguments.config with
  | none => dict_item default_values arg_name
  | some config =>
    match alist_get arg_name config with
    | none => dict_item default_values arg_name
    | some v => v

/-- The state of an `argparse.ArgumentParser` as this program constructs
it: the ten constructor settings parse.py passes, plus the flag strings of
the arguments registered so far. -/
structure ArgumentParserObj where
  prog : PyValue
  usage : PyValue
  description : PyValue
  epilog : PyValue
  formatter_class : PyValue
  prefix_chars : PyValue
  fromfile_prefix_chars : PyValue
  add_help : PyValue
  allow_abbrev : PyValue
  exit_on_error : PyValue
  arguments : List (List String)

/-- Modelled from CPython argparse (external primitive, spec section 6):
`ArgumentParser.add_argument` with the supplied flag strings.  Called with
no flag strings and no `dest` keyword — exactly how parse.py line 40 calls
it — it falls through to `_get_positional_kwargs(**kwargs)`, which raises
`TypeError` because its required `dest` parameter is missing. -/
def ArgumentParserObj.add_argument (p : ArgumentParserObj)
    (name_or_flags : List String) : Except PyErr ArgumentParserObj :=
  match name_or_flags with
  | [] =>
    .error (.typeError "_get_positional_kwargs missing 1 required positional argument: dest")
  | flags => .ok { p with arguments := p.arguments ++ [flags] }

/-- Modelled from CPython argparse (external primitive, spec section 6):
`ArgumentParser.parse_args` returning a namespace.  In this program the
call is unreachable — `parser.add_argument()` on the preceding line always
raises first — so it is modelled as succeeding with an empty namespace. -/
def ArgumentParserObj.run_parse (_p : ArgumentParserObj) (_args : List String) :
    Except PyErr (List (String × PyValue)) :=
  .ok []

/-- The `argparse.ArgumentParser(...)` construction of parse.py
(lines 27-39): every constructor setting is resolved through
`_resolve_config` against the defaults recovered from the external
primitive's signature, and the parser starts with no registered
arguments. -/
def parser_of_schema (arg_type : SchemaClass) : ArgumentParserObj :=
  let default_args := argparse_init_defaults
  { prog := _resolve_config arg_type "prog" default_args,
    usage := _resolve_config arg_type "usage" default_args,
    description := _resolve_config arg_type "description" default_args,
    epilog := _resolve_config arg_type "epilog" default_args,
    formatter_class := _resolve_config arg_type "formatter_class" default_args,
    prefix_chars := _resolve_config arg_type "prefix_chars" default_args,
    fromfile_prefix_chars := _resolve_config arg_type "fromfile_prefix_chars" default_args,
    add_help := _resolve_config arg_type "add_help" default_args,
    allow_abbrev := _resolve_config arg_type "allow_abbrev" default_args,
    exit_on_error := _resolve_config arg_type "exit_on_error" default_args,
    arguments := [] }

/-- `parse_args` of parse.py (lines 22-43): build the parser from the
schema's `Config` (lines 27-39), call `parser.add_argument()` with no
arguments (line 40), call `parser.parse_args(args)` (line 41), and return
`arg_type()` — a bare instance with no attributes set, the parsed
namespace discarded (line 43).  `enable_sub_args` is accepted and never
used, as in the source. -/
def parse_args (arg_type : SchemaClass) (args : List String)
    (enable_sub_args : Option (List String)) : Except PyErr AppArgumentsObj :=
  let parser := parser_of_schema arg_type
  match parser.add_argument [] with
  | .error e => .error e
  | .ok parser2 =>
    match parser2.run_parse args with
    | .error e => .error e
    | .ok _ => .ok (.mk arg_type [] none none)

/-- The ten parser-level settings parse.py reads from `Config`. -/
def parser_settings : List String :=
  ["prog", "usage", "description", "epilog", "formatter_class",
   "prefix_chars", "fromfile_prefix_chars", "add_help", "allow_abbrev",
   "exit_on_error"]

/-- Read one of the ten constructor settings off a parser by name. -/
def ArgumentParserObj.get_setting (p : ArgumentParserObj) : String → Option PyValue
  | "prog" => some p.prog
  | "usage" => some p.usage
  | "description" => some p.description
  | "epilog" => some p.epilog
  | "formatter_class" => some p.formatter_class
  | "prefix_chars" => some p.prefix_chars
  | "fromfile_prefix_chars" => some p.fromfile_prefix_chars
  | "add_help" => some p.add_help
  | "allow_abbrev" => some p.allow_abbrev
  | "exit_on_error" => some p.exit_on_error
  | _ => none

/-- Sanity: every setting parse.py queries is present in the defaults
table, so `dict_item` never falls back (Python dict indexing never raises
`KeyError` here). -/
theorem argparse_defaults_total :
    ∀ s ∈ parser_settings, (alist_get s argparse_init_defaults).isSome = true := by
  decide

/-- Claim C4: constructing an `Argument` field descriptor fails exactly
when a default value and a default factory are both declared, or
`required=False` is combined with a declared default value or default
factory, or `custom_type_requires_list` is set without a custom converter;
in every other case construction succeeds and stores every supplied
parameter. -/
theorem c4_argument_init_validation (alias_ : Option String) (default : PyValue)
    (default_factory : Option (Unit → PyValue))
    (custom_type : Option (String → Except PyErr PyValue))
    (post_val : Option (PyValue → Except PyErr PyValue))
    (required : Option Bool) (help_ : Option String) (metavar : Option String)
    (list_style : ListStyle) (custom_type_requires_list : Bool) :
    ((∃ e, Argument.init alias_ default default_factory custom_type post_val
        required help_ metavar list_style custom_type_requires_list = .error e) ↔
      ((default ≠ PyValue.undefined ∧ default_factory.isSome = true) ∨
       (required = some false ∧
         (default ≠ PyValue.undefined ∨ default_factory.isSome = true)) ∨
       (custom_type_requires_list = true ∧ custom_type.isNone = true))) ∧
    (∀ a, Argument.init alias_ default default_factory custom_type post_val
        required help_ metavar list_style custom_type_requires_list = .ok a →
      a = { alias_ := alias_, default := default, default_factory := default_factory,
            custom_type := custom_type, post_validator := post_val,
            required := required, help_ := help_, metavar := metavar,
            list_style := list_style,
            custom_type_requires_list := custom_type_requires_list }) := by
  unfold Argument.init
  split_ifs with h1 h2 h3 <;> constructor <;> simp_all

/-- Witness for C4: a descriptor declaring both a default value and a
default factory is rejected, and a descriptor with only an alias is
accepted with its parameters stored. -/
theorem c4_argument_init_validation_witness :
    (∃ e, Argument.init none (PyValue.pystr "d") (some fun _ => PyValue.pynone)
        none none none none none ListStyle.repeat_key false = .error e) ∧
    Argument.init (some "a") PyValue.undefined none none none none none none
        ListStyle.repeat_key false =
      .ok { alias_ := some "a", default := PyValue.undefined, default_factory := none,
            custom_type := none, post_validator := none, required := none,
            help_ := none, metavar := none, list_style := ListStyle.repeat_key,
            custom_type_requires_list := false } := by
  constructor
  · exact (c4_argument_init_validation none (PyValue.pystr "d")
      (some fun _ => PyValue.pynone) none none none none none
      ListStyle.repeat_key false).1.mpr (Or.inl (by simp))
  · cases hinit : Argument.init (some "a") PyValue.undefined none none none none
        none none ListStyle.repeat_key false with
    | error e =>
      exact absurd ((c4_argument_init_validation (some "a") PyValue.undefined none
        none none none none none ListStyle.repeat_key false).1.mp ⟨e, hinit⟩)
        (by simp)
    | ok a =>
      rw [(c4_argument_init_validation (some "a") PyValue.undefined none none none
        none none none ListStyle.repeat_key false).2 a hinit]

/-- Claim C10: the null value counts as a declared default while the
`Undefined` sentinel does not: `Argument(default=None, default_factory=g)`
raises for every factory `g`, `Argument(required=False, default=None)`
raises, and `Argument(required=False)` with the default left at the
`Undefined` sentinel is accepted. -/
theorem c10_none_counts_as_default :
    (∀ g : Unit → PyValue, ∃ e, Argument.init none PyValue.pynone (some g) none none
        none none none ListStyle.repeat_key false = .error e) ∧
    (∃ e, Argument.init none PyValue.pynone none none none (some false) none none
        ListStyle.repeat_key false = .error e) ∧
    (∃ a, Argument.init none PyValue.undefined none none none (some false) none none
        ListStyle.repeat_key false = .ok a) :=
  ⟨fun _ => ⟨_, rfl⟩, ⟨_, rfl⟩, ⟨_, rfl⟩⟩

/-- Claim C9: the object built by the `post_validator` decorator applies
the wrapped callable to exactly the one supplied field value —
`(post_validator fs f).validate v = f v` — and stores the field
specification unchanged; the owning schema instance is never passed to the
wrapped callable. -/
theorem c9_post_validator_wraps {T : Type} (fields : String ⊕ List String)
    (f : T → T) (v : T) :
    (post_validator fields f).validate v = f v ∧
    (post_validator fields f).fields = fields :=
  ⟨rfl, rfl⟩

/-- A schema class with one field declared by annotation only
(`test_arg: int`), as in most tests: no `Argument` descriptor is
assigned. -/
def c5AnnotOnlyArgs : SchemaClass :=
  mkAppArgumentsSubclass "Args" [("test_arg", none)] none

/-- A materialized-looking instance of `c5AnnotOnlyArgs` whose internal
field-value mapping holds `test_arg = 1`. -/
def c5AnnotOnlyInstance : AppArgumentsObj :=
  .mk c5AnnotOnlyArgs [] (some [("test_arg", PyValue.pyint 1)]) none

/-- Claim C5 counterexample: on an instance whose field `test_arg` is
declared by annotation alone — no `Argument` descriptor assigned — the
assignment `inst.test_arg = 5` raises no error at all (the value lands in
the instance `__dict__`), because `Argument.__set__` only guards fields
that were assigned an `Argument` instance in the class body.  This refutes
the claim for "every declared field". -/
theorem c5_counterexample_annotated_field_writable :
    (instance_setattr c5AnnotOnlyInstance "test_arg" (PyValue.pyint 5)).2 = none :=
  rfl

/-- Claim C5 (amended): for every declared field that is bound to an
`Argument` descriptor, assigning a new value to that field's attribute
after construction raises `TypeError` and leaves the instance — in
particular its internal `_pydargparse_args` field-value mapping —
unchanged. -/
theorem c5_descriptor_fields_immutable (inst : AppArgumentsObj) (name : String)
    (value : PyValue) (a : Argument)
    (h : alist_get name inst.cls.fields = some (some a)) :
    (instance_setattr inst name value).2 =
      some (PyErr.typeError "Argument attributes are immutable") ∧
    (instance_setattr inst name value).1 = inst ∧
    ((instance_setattr inst name value).1).pyd_args = inst.pyd_args := by
  unfold instance_setattr
  rw [h]
  exact ⟨rfl, rfl, rfl⟩

/-- An `Argument()` descriptor with every parameter left at its default. -/
def c5PlainArgument : Argument :=
  { alias_ := none, default := PyValue.undefined, default_factory := none,
    custom_type := none, post_validator := none, required := none,
    help_ := none, metavar := none, list_style := ListStyle.repeat_key,
    custom_type_requires_list := false }

/-- A schema class whose field `test_arg` is assigned an `Argument`
descriptor. -/
def c5DescriptorArgs : SchemaClass :=
  mkAppArgumentsSubclass "Args" [("test_arg", some c5PlainArgument)] none

/-- An instance of `c5DescriptorArgs` with `test_arg = 1` in its internal
mapping. -/
def c5DescriptorInstance : AppArgumentsObj :=
  .mk c5DescriptorArgs [] (some [("test_arg", PyValue.pyint 1)]) none

/-- Witness for the amended C5: writing `test_arg` on an instance whose
class assigned it an `Argument` descriptor raises `TypeError` and changes
nothing. -/
theorem c5_descriptor_fields_immutable_witness :
    (instance_setattr c5DescriptorInstance "test_arg" (PyValue.pyint 5)).2 =
      some (PyErr.typeError "Argument attributes are immutable") ∧
    (instance_setattr c5DescriptorInstance "test_arg" (PyValue.pyint 5)).1 =
      c5DescriptorInstance ∧
    ((instance_setattr c5DescriptorInstance "test_arg" (PyValue.pyint 5)).1).pyd_args =
      c5DescriptorInstance.pyd_args :=
  c5_descriptor_fields_immutable c5DescriptorInstance "test_arg" (PyValue.pyint 5)
    c5PlainArgument rfl

/-- A schema class as the C6 test declares it. -/
def c6ArgsClass : SchemaClass :=
  mkAppArgumentsSubclass "Args" [("test_arg", none)] none

/-- An instance as the library creates it: `parse_args` returns
`arg_type()`, a bare object on which neither `_pydargparse_args` nor
`_pydargparse_sub_args` was ever assigned. -/
def c6BareInstance : AppArgumentsObj := .mk c6ArgsClass [] none none

/-- Claim C6 evaluated at the failing input: on an instance as the library
constructs it, `pydargparse_get_sub_args` raises `AttributeError` for the
never-assigned `_pydargparse_sub_args` attribute — not the recoverable
lookup `ValueError` naming both types that the claim (and the test
`test_imperative_style__non_registered__fail`) requires.  The `ValueError`
branch of models.py lines 19-20 is reachable only from a populated
mapping, which no code in the library ever creates. -/
theorem c6_get_sub_args_attribute_error :
    pydargparse_get_sub_args c6BareInstance "SubArgs" =
      .error (.attributeError "_pydargparse_sub_args") :=
  rfl

/-- Claim C3 evaluated on the code: for every freshly declared schema
class — and models.py never assigns `_pydargparse_sub_args`, it only
annotates it — every call to `register_sub_args` raises `AttributeError`
instead of appending a sub-schema link, contradicting the tests
(`test_imperative_style__simple`) and the claim. -/
theorem c3_register_sub_args_attribute_error (name : String)
    (fields : List (String × Option Argument))
    (config : Option (List (String × PyValue)))
    (sub : String) (pfx : Option String) :
    register_sub_args (mkAppArgumentsSubclass name fields config) sub pfx =
      .error (.attributeError "_pydargparse_sub_args") :=
  rfl

/-- The one-field int schema of the round-trip test
(`class Args(AppArguments): test_arg: int`). -/
def c1IntArgs : SchemaClass :=
  mkAppArgumentsSubclass "Args" [("test_arg", none)] none

/-- Claim C1 evaluated at the failing input: compiling the one-int-field
schema and parsing `["--test-arg", "10"]` does not return an instance
holding `10`; `parse_args` raises `TypeError` at the bare
`parser.add_argument()` call of parse.py line 40, and even apart from that
call it ends in `return arg_type()`, a bare instance that never receives
the parsed values. -/
theorem c1_roundtrip_fails :
    parse_args c1IntArgs ["--test-arg", "10"] none =
      .error (.typeError
        "_get_positional_kwargs missing 1 required positional argument: dest") :=
  rfl

/-- Claim C2 evaluated on the code: for every schema type and every
argument vector, `parse_args` raises `TypeError` out of the bare
`parser.add_argument()` call — a third outcome that is neither a
materialized instance nor the external parser's failure protocol. -/
theorem c2_parse_args_always_type_error (arg_type : SchemaClass)
    (args : List String) (enable_sub_args : Option (List String)) :
    parse_args arg_type args enable_sub_args =
      .error (.typeError
        "_get_positional_kwargs missing 1 required positional argument: dest") :=
  rfl

/-- The post-validator of the C7 scenario: `x -> x + 1` on ints. -/
def c7IncValidator : PyValue → Except PyErr PyValue
  | .pyint n => .ok (.pyint (n + 1))
  | v => .ok v

/-- A schema whose int field `test_arg` declares the post-validator
`x -> x + 1`, as in `test_custom_functional_post_validator__change_val`. -/
def c7Args : SchemaClass :=
  mkAppArgumentsSubclass "Args"
    [("test_arg",
      some { alias_ := none, default := PyValue.undefined, default_factory := none,
             custom_type := none, post_validator := some c7IncValidator,
             required := none, help_ := none, metavar := none,
             list_style := ListStyle.repeat_key,
             custom_type_requires_list := false })] none

/-- Claim C7 evaluated at the failing input: the declared post-validator
does map `1` to `2`, but `parse_args` on `["--test-arg", "1"]` never
applies it — it raises `TypeError` at the bare `parser.add_argument()`
call, and its final `return arg_type()` discards the parsed values and
runs no validator — so no instance with stored value `2` is ever
produced. -/
theorem c7_post_validator_never_applied :
    c7IncValidator (PyValue.pyint 1) = .ok (PyValue.pyint 2) ∧
    parse_args c7Args ["--test-arg", "1"] none =
      .error (.typeError
        "_get_positional_kwargs missing 1 required positional argument: dest") :=
  ⟨rfl, rfl⟩

/-- Claim C8: for every schema type and every parser-level setting among
the ten parse.py reads (program name, usage, description, epilog,
formatter class, prefix characters, fromfile prefix, help flag toggle,
abbreviation policy, error-exit policy), the compiled external parser is
constructed with the `Config` value when the schema's `Config` block
defines that setting, and with the external primitive's own default when
the `Config` block is absent or does not define it. -/
theorem c8_config_resolution (arg_type : SchemaClass) (s : String)
    (hs : s ∈ parser_settings) :
    (arg_type.config = none →
      (parser_of_schema arg_type).get_setting s =
        some (dict_item argparse_init_defaults s)) ∧
    (∀ c, arg_type.config = some c → alist_get s c = none →
      (parser_of_schema arg_type).get_setting s =
        some (dict_item argparse_init_defaults s)) ∧
    (∀ c v, arg_type.config = some c → alist_get s c = some v →
      (parser_of_schema arg_type).get_setting s = some v) := by
  have expand : ∀ t : SchemaClass, ∀ u ∈ parser_settings,
      (parser_of_schema t).get_setting u =
        some (_resolve_config t u argparse_init_defaults) := by
    intro t u hu
    simp only [parser_settings, List.mem_cons, List.not_mem_nil, or_false] at hu
    rcases hu with rfl | rfl | rfl | rfl | rfl | rfl | rfl | rfl | rfl | rfl <;> rfl
  refine ⟨fun h => ?_, fun c hc hn => ?_, fun c v hc hv => ?_⟩ <;>
    rw [expand arg_type s hs, _resolve_config]
  · rw [h]
  · rw [hc]
    dsimp only
    rw [hn]
  · rw [hc]
    dsimp only
    rw [hv]

/-- A schema whose `Config` block sets `prog` to `"myprog"` and nothing
else. -/
def c8CfgArgs : SchemaClass :=
  mkAppArgumentsSubclass "Args" [("test_arg", none)]
    (some [("prog", PyValue.pystr "myprog")])

/-- Witness for C8: with `Config.prog = "myprog"`, the constructed parser
carries `prog = "myprog"`, while the undefined setting `usage` falls back
to the external primitive's default. -/
theorem c8_config_resolution_witness :
    (parser_of_schema c8CfgArgs).get_setting "prog" = some (PyValue.pystr "myprog") ∧
    (parser_of_schema c8CfgArgs).get_setting "usage" =
      some (dict_item argparse_init_defaults "usage") :=
  ⟨(c8_config_resolution c8CfgArgs "prog" (by simp [parser_settings])).2.2
      [("prog", PyValue.pystr "myprog")] (PyValue.pystr "myprog") rfl rfl,
   (c8_config_resolution c8CfgArgs "usage" (by simp [parser_settings])).2.1
      [("prog", PyValue.pystr "myprog")] rfl rfl⟩
